import Mathlib

/-!
# MindSprouts Hub: the installed-state probe and the install / launch actions

A shallow embedding of `src/App.js`.  The component `App` is a thin layer over
calls into the operating system (package query, permission request, asset copy,
intent dispatch).  Every such call is recorded as an `Event` in a trace, and its
outcome is supplied by an `OS` record, so that a statement "for every behaviour
of the OS" is a statement for every value of that record.

An asynchronous function is a value of `Eff α`: the events it produced, in
order, and how it completed (`.ok v`: its promise resolved with `v`;
`.error e`: it threw, or its promise was rejected with `e`).  An awaited call
fails when its promise is rejected.  `Alert.alert`, `console.warn`,
`console.error` and `setInstalledGames` are recorded and always return.
-/

set_option autoImplicit false

namespace MindSprouts

/-! ## Data model -/

/-- One entry of the static catalog `games` (imported from `./games`). -/
structure Game where
  id : Nat
  title : String
  desc : String
  image : String
  packageName : String
  fileName : String
deriving DecidableEq, Repr

/-- The object held by `installedGames`: the own properties of a plain JS
object (`{}`, whose prototype is `Object.prototype`) used as a dictionary from
package name to boolean. -/
abbrev JSObject := List (String × Bool)

/-- The property names of `Object.prototype`, which every plain object
inherits: the standard methods and the legacy accessors.  Each of them reads
as a function or an object. -/
def objectPrototypeMembers : List String :=
  ["constructor", "hasOwnProperty", "isPrototypeOf", "propertyIsEnumerable",
    "toLocaleString", "toString", "valueOf", "__proto__", "__defineGetter__",
    "__defineSetter__", "__lookupGetter__", "__lookupSetter__"]

/-- What a read of the state map gives: `undefined`, a boolean stored by the
probe, or a member inherited from `Object.prototype`. -/
inductive JSValue where
  | undefined
  | boolean (b : Bool)
  | inherited (name : String)
deriving DecidableEq, Repr

/-- The own property `key` of the object, if it has one. -/
def JSObject.own : JSObject → String → Option Bool
  | [], _ => none
  | (k, v) :: rest, key => if k = key then some v else JSObject.own rest key

/-- Overwrite the own property `key`, or add it. -/
def JSObject.define : JSObject → String → Bool → JSObject
  | [], key, value => [(key, value)]
  | (k, v) :: rest, key, value =>
    if k = key then (k, value) :: rest else (k, v) :: JSObject.define rest key value

/-- The assignment `result[key] = value` of a boolean: overwrite an existing
own property, otherwise add one.  The name `__proto__` is the exception: on an
object without such an own property the assignment runs the setter inherited
from `Object.prototype`, which ignores a boolean and creates no property. -/
def JSObject.set (obj : JSObject) (key : String) (value : Bool) : JSObject :=
  if key = "__proto__" ∧ obj.own key = none then obj else obj.define key value

/-- The read `obj[key]`: the own property when there is one, otherwise the
member of `Object.prototype` of that name, otherwise `undefined`. -/
def JSObject.get (obj : JSObject) (key : String) : JSValue :=
  match obj.own key with
  | some v => .boolean v
  | none => if key ∈ objectPrototypeMembers then .inherited key else .undefined

/-- The own keys of the object (`Object.keys`). -/
def JSObject.keys (obj : JSObject) : List String := obj.map Prod.fst

/-- JS truthiness of a value read from the state map: `undefined` is falsy,
a function or object is truthy. -/
def truthy : JSValue → Bool
  | .undefined => false
  | .boolean b => b
  | .inherited _ => true

/-- The two entries of `PermissionsAndroid.PERMISSIONS` the program uses. -/
inductive Permission where
  | MANAGE_EXTERNAL_STORAGE
  | WRITE_EXTERNAL_STORAGE
deriving DecidableEq, Repr

/-- The constant `PermissionsAndroid.RESULTS.GRANTED`. -/
def GRANTED : String := "granted"

/-- One button of an `Alert.alert` dialog.  The `onPress` closure of a button
runs on a later tap, outside the call that shows the dialog. -/
structure AlertButton where
  text : String
  style : Option String
deriving DecidableEq, Repr

/-- The argument object of `IntentLauncher.startActivity`. -/
structure IntentParams where
  action : String
  data : String
  type : String
  flags : Nat
deriving DecidableEq, Repr

/-- Every observable step of the program: a call into the OS or a library, a
console line, a dialog, or a write to the React state.  An `alert` with the
empty list of buttons is a call of `Alert.alert` with a title and a message
only. -/
inductive Event where
  | isAppInstalled (packageName : String)
  | permissionRequest (permission : Permission)
  | alert (title message : String) (buttons : List AlertButton)
  | consoleWarn (err : String)
  | consoleError (err : String)
  | copyFileAssets (src dest : String)
  | startActivity (params : IntentParams)
  | startAppByPackageName (pkg : String)
  | setInstalledGames (value : JSObject)
deriving DecidableEq, Repr

abbrev Trace := List Event

/-- The environment.  `Version` is `Platform.Version`, `DownloadDirectoryPath`
is `RNFS.DownloadDirectoryPath`.  The other fields give the outcome of each OS
call as a function of its arguments; `isAppInstalled n pkg` is the outcome of
the query for `pkg` when `n` queries were made before it, so the answer may
change while the probe runs.  `startActivity` and `startAppByPackageName` are
called without `await`: their outcome is whether the call itself returned or
threw.  `startActivityPromise` and `startAppByPackageNamePromise` say how the
promise such a call returned is settled afterwards; the program never looks at
it. -/
structure OS where
  Version : Nat
  DownloadDirectoryPath : String
  isAppInstalled : Nat → String → Except String Bool
  request : Permission → Except String String
  copyFileAssets : String → String → Except String Unit
  startActivity : IntentParams → Except String Unit
  startAppByPackageName : String → Except String Unit
  startActivityPromise : IntentParams → Except String Unit
  startAppByPackageNamePromise : String → Except String Unit

/-! ## Effects -/

/-- A computation that has run: its events and its completion. -/
structure Eff (α : Type) where
  trace : Trace
  result : Except String α

namespace Eff

/-- Completing normally with a value. -/
def pure {α : Type} (a : α) : Eff α := ⟨[], .ok a⟩

/-- Sequencing: the second part runs only when the first completed normally. -/
def bind {α β : Type} (x : Eff α) (f : α → Eff β) : Eff β :=
  match x.result with
  | .ok a => ⟨x.trace ++ (f a).trace, (f a).result⟩
  | .error e => ⟨x.trace, .error e⟩

/-- The statement `try { body } catch (e) { handler }`. -/
def tryCatch {α : Type} (body : Eff α) (handler : String → Eff α) : Eff α :=
  match body.result with
  | .ok a => ⟨body.trace, .ok a⟩
  | .error e => ⟨body.trace ++ (handler e).trace, (handler e).result⟩

/-- A call that is recorded and whose outcome the environment decides. -/
def call {α : Type} (ev : Event) (outcome : Except String α) : Eff α := ⟨[ev], outcome⟩

/-- A call that is recorded and always returns. -/
def emit (ev : Event) : Eff Unit := ⟨[ev], .ok ()⟩

end Eff

/-! ## The program -/

/-- The loop of `checkInstalled` (lines 29-32): `n` queries were made so far,
`result` is the object built so far. -/
def checkInstalledLoop (os : OS) : Nat → List Game → JSObject → Eff JSObject
  | _, [], result => Eff.pure result
  | n, game :: rest, result =>
    Eff.bind (Eff.call (.isAppInstalled game.packageName) (os.isAppInstalled n game.packageName))
      fun installed => checkInstalledLoop os (n + 1) rest (result.set game.packageName installed)

/-- `checkInstalled` (lines 27-34). -/
def checkInstalled (os : OS) (games : List Game) : Eff Unit :=
  Eff.bind (checkInstalledLoop os 0 games []) fun result =>
    Eff.emit (.setInstalledGames result)

/-- The value of the state `installedGames` after the events of a trace: the
argument of the last `setInstalledGames`, or the previous value. -/
def installedGamesAfter (current : JSObject) : Trace → JSObject
  | [] => current
  | .setInstalledGames value :: rest => installedGamesAfter value rest
  | _ :: rest => installedGamesAfter current rest

/-- The text of the dialog shown when broad storage access is not granted. -/
def permissionNeededMessage : String :=
  "Please allow \x27All files access\x27 for MindSprouts Hub to install games."

/-- `requestStoragePermission` (lines 37-74). -/
def requestStoragePermission (os : OS) : Eff Bool :=
  if os.Version ≥ 30 then
    Eff.tryCatch
      (Eff.bind (Eff.call (.permissionRequest .MANAGE_EXTERNAL_STORAGE)
          (os.request .MANAGE_EXTERNAL_STORAGE)) fun granted =>
        if granted ≠ GRANTED then
          Eff.bind (Eff.emit (.alert "Permission Needed" permissionNeededMessage
            [⟨"Open Settings", none⟩, ⟨"Cancel", some "cancel"⟩])) fun _ =>
          Eff.pure false
        else Eff.pure true)
      (fun err => Eff.bind (Eff.emit (.consoleWarn err)) fun _ => Eff.pure false)
  else
    Eff.bind (Eff.call (.permissionRequest .WRITE_EXTERNAL_STORAGE)
        (os.request .WRITE_EXTERNAL_STORAGE)) fun granted =>
      Eff.pure (decide (granted = GRANTED))

/-- The intent built by `installGame` for the copied file (lines 87-93). -/
def installIntent (dest : String) : IntentParams :=
  { action := "android.intent.action.VIEW"
    data := "file://" ++ dest
    type := "application/vnd.android.package-archive"
    flags := 1 <<< 1 }

/-- `installGame` (lines 77-98). -/
def installGame (os : OS) (game : Game) : Eff Unit :=
  Eff.tryCatch
    (Eff.bind (requestStoragePermission os) fun ok =>
      if !ok then Eff.pure () else
      let src := "games/" ++ game.fileName
      let dest := os.DownloadDirectoryPath ++ "/" ++ game.fileName
      Eff.bind (Eff.call (.copyFileAssets src dest) (os.copyFileAssets src dest)) fun _ =>
      Eff.call (.startActivity (installIntent dest)) (os.startActivity (installIntent dest)))
    (fun error => Eff.bind (Eff.emit (.consoleError error)) fun _ =>
      Eff.emit (.alert "Error" "Failed to install the APK" []))

/-- `playGame` (lines 100-106). -/
def playGame (os : OS) (pkg : String) : Eff Unit :=
  Eff.tryCatch
    (Eff.call (.startAppByPackageName pkg) (os.startAppByPackageName pkg))
    (fun _ => Eff.emit (.alert "Error" "Unable to launch game." []))

/-- The action button of one card, as `renderGame` builds it. -/
structure Button where
  backgroundColor : String
  label : String
  onPress : OS → Eff Unit

/-- `renderGame` (lines 108-130), restricted to the action button. -/
def renderGame (installedGames : JSObject) (item : Game) : Button :=
  let isInstalled := truthy (installedGames.get item.packageName)
  { backgroundColor := if isInstalled then "#00C853" else "#FF4081"
    label := if isInstalled then "▶ Play" else "⬇ Install"
    onPress := fun os => if isInstalled then playGame os item.packageName else installGame os item }

/-! ## Observations on traces -/

def Event.isPermissionRequest : Event → Bool
  | .permissionRequest _ => true
  | _ => false

def Event.isCopy : Event → Bool
  | .copyFileAssets _ _ => true
  | _ => false

def Event.isInstallIntent : Event → Bool
  | .startActivity _ => true
  | _ => false

def Event.isLaunch : Event → Bool
  | .startAppByPackageName _ => true
  | _ => false

def Event.isAlert : Event → Bool
  | .alert _ _ _ => true
  | _ => false

/-- The calls into the OS (package query, permission, copy, intents), as
opposed to dialogs, console lines and state writes. -/
def Event.isOSCall : Event → Bool
  | .isAppInstalled _ => true
  | .permissionRequest _ => true
  | .copyFileAssets _ _ => true
  | .startActivity _ => true
  | .startAppByPackageName _ => true
  | _ => false

/-- The dialog of line 46. -/
def permissionNeededAlert : Event :=
  .alert "Permission Needed" permissionNeededMessage
    [⟨"Open Settings", none⟩, ⟨"Cancel", some "cancel"⟩]

/-- The dialog of line 96. -/
def installFailedAlert : Event := .alert "Error" "Failed to install the APK" []

/-- The dialog of line 104. -/
def launchFailedAlert : Event := .alert "Error" "Unable to launch game." []

/-- The permission the gate asks for on a given OS version. -/
def requestedPermission (version : Nat) : Permission :=
  if version ≥ 30 then .MANAGE_EXTERNAL_STORAGE else .WRITE_EXTERNAL_STORAGE

/-- Two invocations of `installGame` for the same game, the second started
when the first has completed; `first` and `second` are the behaviour of the OS
during each. -/
def installTwice (first second : OS) (game : Game) : Eff Unit :=
  Eff.bind (installGame first game) fun _ => installGame second game

/-- Whether the OS answers `GRANTED` to the permission request the gate makes
on its version. -/
def OS.grants (os : OS) : Bool :=
  match os.request (requestedPermission os.Version) with
  | .ok answer => decide (answer = GRANTED)
  | .error _ => false

/-- The state `installedGames` once `checkInstalled` has run from the initial
state `useState({})`. -/
def probedGames (os : OS) (games : List Game) : JSObject :=
  installedGamesAfter [] (checkInstalled os games).trace

/-! ## Sample inputs -/

/-- A catalog entry: package `com.x`, shipped as `maze.apk`. -/
def sampleGame : Game :=
  { id := 1, title := "Maze", desc := "Find the way out", image := "maze.png",
    packageName := "com.x", fileName := "maze.apk" }

/-- A second catalog entry: package `com.y`. -/
def otherGame : Game :=
  { id := 2, title := "Shapes", desc := "Match the shapes", image := "shapes.png",
    packageName := "com.y", fileName := "shapes.apk" }

/-- An OS of the given version on which every call succeeds, every permission
is granted, and only `com.y` is installed. -/
def grantingOS (version : Nat) : OS :=
  { Version := version
    DownloadDirectoryPath := "/storage/emulated/0/Download"
    isAppInstalled := fun _ pkg => .ok (decide (pkg = "com.y"))
    request := fun _ => .ok GRANTED
    copyFileAssets := fun _ _ => .ok ()
    startActivity := fun _ => .ok ()
    startAppByPackageName := fun _ => .ok ()
    startActivityPromise := fun _ => .ok ()
    startAppByPackageNamePromise := fun _ => .ok () }

/-- As `grantingOS`, but every permission request is answered `denied`. -/
def denyingOS (version : Nat) : OS :=
  { grantingOS version with request := fun _ => .ok "denied" }

/-- As `grantingOS`, but the permission request itself fails. -/
def brokenRequestOS (version : Nat) : OS :=
  { grantingOS version with request := fun _ => .error "request failed" }

/-- As `grantingOS`, but copying the asset fails. -/
def brokenCopyOS (version : Nat) : OS :=
  { grantingOS version with copyFileAssets := fun _ _ => .error "ENOENT" }

/-- As `grantingOS`, but the installer intent call throws. -/
def brokenIntentOS (version : Nat) : OS :=
  { grantingOS version with startActivity := fun _ => .error "no activity" }

/-- As `grantingOS`, but launching a package throws. -/
def brokenLaunchOS (version : Nat) : OS :=
  { grantingOS version with startAppByPackageName := fun _ => .error "not found" }

/-- As `grantingOS`, but the installer intent call returns a promise that is
rejected afterwards. -/
def rejectedIntentOS (version : Nat) : OS :=
  { grantingOS version with startActivityPromise := fun _ => .error "no activity" }

/-- As `grantingOS`, but the launch call returns a promise that is rejected
afterwards. -/
def rejectedLaunchOS (version : Nat) : OS :=
  { grantingOS version with startAppByPackageNamePromise := fun _ => .error "not found" }

/-- An OS on which the package query answers `true` for every package except
`com.x`, for which the query fails. -/
def brokenQueryOS (version : Nat) : OS :=
  { grantingOS version with
    isAppInstalled := fun _ pkg => if pkg = "com.x" then .error "query failed" else .ok true }

/-- A catalog entry whose package name is `__proto__`. -/
def protoGame : Game :=
  { id := 3, title := "Proto", desc := "", image := "proto.png",
    packageName := "__proto__", fileName := "proto.apk" }

/-- A catalog entry whose package name is `constructor`. -/
def constructorGame : Game :=
  { id := 4, title := "Constructor", desc := "", image := "constructor.png",
    packageName := "constructor", fileName := "constructor.apk" }

/-! ## Closed forms of the permission gate and of the actions -/

theorem requestStoragePermission_eq (os : OS) :
    requestStoragePermission os =
      match os.request (requestedPermission os.Version) with
      | .ok answer =>
        if answer = GRANTED then
          ⟨[.permissionRequest (requestedPermission os.Version)], .ok true⟩
        else if 30 ≤ os.Version then
          ⟨[.permissionRequest .MANAGE_EXTERNAL_STORAGE, permissionNeededAlert], .ok false⟩
        else ⟨[.permissionRequest .WRITE_EXTERNAL_STORAGE], .ok false⟩
      | .error e =>
        if 30 ≤ os.Version then
          ⟨[.permissionRequest .MANAGE_EXTERNAL_STORAGE, .consoleWarn e], .ok false⟩
        else ⟨[.permissionRequest .WRITE_EXTERNAL_STORAGE], .error e⟩ := by
  unfold requestStoragePermission requestedPermission permissionNeededAlert
  by_cases hv : os.Version ≥ 30
  · simp only [hv, if_true]
    cases hr : os.request .MANAGE_EXTERNAL_STORAGE with
    | error e => simp [Eff.tryCatch, Eff.bind, Eff.call, Eff.emit, Eff.pure, hr]
    | ok answer =>
      by_cases hg : answer = GRANTED <;>
        simp [Eff.tryCatch, Eff.bind, Eff.call, Eff.emit, Eff.pure, hr, hg]
  · simp only [hv, if_false]
    cases hr : os.request .WRITE_EXTERNAL_STORAGE with
    | error e => simp [Eff.bind, Eff.call, Eff.pure, hr]
    | ok answer =>
      by_cases hg : answer = GRANTED <;> simp [Eff.bind, Eff.call, Eff.pure, hr, hg]

theorem installGame_eq (os : OS) (game : Game) :
    installGame os game =
      match (requestStoragePermission os).result with
      | .error e =>
        ⟨(requestStoragePermission os).trace ++ [.consoleError e, installFailedAlert], .ok ()⟩
      | .ok false => ⟨(requestStoragePermission os).trace, .ok ()⟩
      | .ok true =>
        match os.copyFileAssets ("games/" ++ game.fileName)
            (os.DownloadDirectoryPath ++ "/" ++ game.fileName) with
        | .error e =>
          ⟨(requestStoragePermission os).trace ++
            [.copyFileAssets ("games/" ++ game.fileName)
                (os.DownloadDirectoryPath ++ "/" ++ game.fileName),
              .consoleError e, installFailedAlert], .ok ()⟩
        | .ok _ =>
          match os.startActivity (installIntent (os.DownloadDirectoryPath ++ "/" ++ game.fileName)) with
          | .error e =>
            ⟨(requestStoragePermission os).trace ++
              [.copyFileAssets ("games/" ++ game.fileName)
                  (os.DownloadDirectoryPath ++ "/" ++ game.fileName),
                .startActivity (installIntent (os.DownloadDirectoryPath ++ "/" ++ game.fileName)),
                .consoleError e, installFailedAlert], .ok ()⟩
          | .ok _ =>
            ⟨(requestStoragePermission os).trace ++
              [.copyFileAssets ("games/" ++ game.fileName)
                  (os.DownloadDirectoryPath ++ "/" ++ game.fileName),
                .startActivity (installIntent (os.DownloadDirectoryPath ++ "/" ++ game.fileName))],
              .ok ()⟩ := by
  unfold installGame installFailedAlert
  cases hp : (requestStoragePermission os).result with
  | error e => simp [Eff.tryCatch, Eff.bind, Eff.emit, hp]
  | ok b =>
    cases b with
    | false => simp [Eff.tryCatch, Eff.bind, Eff.pure, hp]
    | true =>
      cases hc : os.copyFileAssets ("games/" ++ game.fileName)
          (os.DownloadDirectoryPath ++ "/" ++ game.fileName) with
      | error e => simp [Eff.tryCatch, Eff.bind, Eff.call, Eff.emit, hp, hc]
      | ok u =>
        cases hs : os.startActivity
            (installIntent (os.DownloadDirectoryPath ++ "/" ++ game.fileName)) with
        | error e => simp [Eff.tryCatch, Eff.bind, Eff.call, Eff.emit, hp, hc, hs]
        | ok u2 => simp [Eff.tryCatch, Eff.bind, Eff.call, Eff.emit, hp, hc, hs]

theorem playGame_eq (os : OS) (pkg : String) :
    playGame os pkg =
      match os.startAppByPackageName pkg with
      | .ok _ => ⟨[.startAppByPackageName pkg], .ok ()⟩
      | .error _ => ⟨[.startAppByPackageName pkg, launchFailedAlert], .ok ()⟩ := by
  unfold playGame launchFailedAlert
  cases hs : os.startAppByPackageName pkg <;> simp [Eff.tryCatch, Eff.call, Eff.emit, hs]

theorem installGame_result (os : OS) (game : Game) : (installGame os game).result = .ok () := by
  rw [installGame_eq]
  cases (requestStoragePermission os).result with
  | error e => rfl
  | ok b =>
    cases b with
    | false => rfl
    | true =>
      simp only
      cases os.copyFileAssets ("games/" ++ game.fileName)
          (os.DownloadDirectoryPath ++ "/" ++ game.fileName) with
      | error e => rfl
      | ok u =>
        simp only
        cases os.startActivity
          (installIntent (os.DownloadDirectoryPath ++ "/" ++ game.fileName)) <;> rfl

theorem playGame_result (os : OS) (pkg : String) : (playGame os pkg).result = .ok () := by
  rw [playGame_eq]
  cases os.startAppByPackageName pkg <;> rfl

/-! ## What a run of each action contains -/

theorem playGame_trace (os : OS) (pkg : String) :
    (playGame os pkg).trace.filter Event.isOSCall = [.startAppByPackageName pkg] ∧
      (playGame os pkg).trace.countP Event.isLaunch = 1 ∧
      (playGame os pkg).trace.countP Event.isPermissionRequest = 0 ∧
      (playGame os pkg).trace.countP Event.isCopy = 0 ∧
      (playGame os pkg).trace.countP Event.isInstallIntent = 0 := by
  rw [playGame_eq]
  cases os.startAppByPackageName pkg <;>
    simp [Event.isOSCall, Event.isLaunch, Event.isPermissionRequest, Event.isCopy,
      Event.isInstallIntent, launchFailedAlert]

theorem requestStoragePermission_no_launch (os : OS) :
    (requestStoragePermission os).trace.countP Event.isLaunch = 0 ∧
      (requestStoragePermission os).trace.countP Event.isPermissionRequest = 1 ∧
      (requestStoragePermission os).trace.countP Event.isCopy = 0 ∧
      ∀ current, installedGamesAfter current (requestStoragePermission os).trace = current := by
  rw [requestStoragePermission_eq]
  cases os.request (requestedPermission os.Version) with
  | error e =>
    by_cases hv : 30 ≤ os.Version <;>
      simp [hv, Event.isLaunch, Event.isPermissionRequest, Event.isCopy, installedGamesAfter]
  | ok a =>
    by_cases hg : a = GRANTED <;> by_cases hv : 30 ≤ os.Version <;>
      simp [hg, hv, Event.isLaunch, Event.isPermissionRequest, Event.isCopy,
        installedGamesAfter, permissionNeededAlert]

theorem installedGamesAfter_append (current : JSObject) (s t : Trace) :
    installedGamesAfter current (s ++ t) =
      installedGamesAfter (installedGamesAfter current s) t := by
  induction s generalizing current with
  | nil => rfl
  | cons ev rest ih =>
    cases ev <;> simp [installedGamesAfter, ih]

theorem installGame_trace (os : OS) (game : Game) :
    (installGame os game).trace.countP Event.isLaunch = 0 ∧
      (installGame os game).trace.countP Event.isPermissionRequest = 1 ∧
      ∀ current, installedGamesAfter current (installGame os game).trace = current := by
  obtain ⟨h1, h2, -, h4⟩ := requestStoragePermission_no_launch os
  rw [installGame_eq]
  cases (requestStoragePermission os).result with
  | error e =>
    simp [h1, h2, h4, installedGamesAfter_append, installedGamesAfter, Event.isLaunch,
      Event.isPermissionRequest, installFailedAlert]
  | ok b =>
    cases b with
    | false => exact ⟨h1, h2, h4⟩
    | true =>
      simp only
      cases os.copyFileAssets ("games/" ++ game.fileName)
          (os.DownloadDirectoryPath ++ "/" ++ game.fileName) with
      | error e =>
        simp [h1, h2, h4, installedGamesAfter_append, installedGamesAfter, Event.isLaunch,
          Event.isPermissionRequest, installFailedAlert]
      | ok u =>
        simp only
        cases os.startActivity
            (installIntent (os.DownloadDirectoryPath ++ "/" ++ game.fileName)) <;>
          simp [h1, h2, h4, installedGamesAfter_append, installedGamesAfter, Event.isLaunch,
            Event.isPermissionRequest, installFailedAlert]

theorem installGame_copies (os : OS) (game : Game) :
    (installGame os game).trace.filter Event.isCopy =
      if os.grants then
        [.copyFileAssets ("games/" ++ game.fileName)
          (os.DownloadDirectoryPath ++ "/" ++ game.fileName)]
      else [] := by
  rw [installGame_eq, requestStoragePermission_eq]
  unfold OS.grants
  cases os.request (requestedPermission os.Version) with
  | error e => by_cases hv : 30 ≤ os.Version <;> simp [hv, Event.isCopy, installFailedAlert]
  | ok a =>
    by_cases hg : a = GRANTED
    · simp only [hg, if_true, decide_True]
      cases os.copyFileAssets ("games/" ++ game.fileName)
          (os.DownloadDirectoryPath ++ "/" ++ game.fileName) with
      | error e => simp [Event.isCopy, installFailedAlert]
      | ok u =>
        simp only
        cases os.startActivity
            (installIntent (os.DownloadDirectoryPath ++ "/" ++ game.fileName)) <;>
          simp [Event.isCopy, installFailedAlert]
    · by_cases hv : 30 ≤ os.Version <;> simp [hg, hv, Event.isCopy, permissionNeededAlert]

/-! ## The state map -/

theorem JSObject.mem_keys_define (obj : JSObject) (key : String) (value : Bool) (k : String) :
    k ∈ (obj.define key value).keys ↔ k ∈ obj.keys ∨ k = key := by
  induction obj with
  | nil => simp [JSObject.define, JSObject.keys]
  | cons p rest ih =>
    obtain ⟨k0, v0⟩ := p
    unfold JSObject.keys at ih ⊢
    by_cases h : k0 = key
    · subst h
      simp only [JSObject.define, if_true, List.map_cons, List.mem_cons]
      tauto
    · simp only [JSObject.define, h, if_false, List.map_cons, List.mem_cons, ih]
      tauto

theorem JSObject.nodup_keys_define (obj : JSObject) (key : String) (value : Bool)
    (h : obj.keys.Nodup) : (obj.define key value).keys.Nodup := by
  induction obj with
  | nil => simp [JSObject.define, JSObject.keys]
  | cons p rest ih =>
    obtain ⟨k0, v0⟩ := p
    have hrest : (JSObject.keys rest).Nodup := by
      unfold JSObject.keys at h ⊢
      exact (List.nodup_cons.mp h).2
    have hk0 : k0 ∉ JSObject.keys rest := by
      unfold JSObject.keys at h ⊢
      exact (List.nodup_cons.mp h).1
    by_cases hk : k0 = key
    · subst hk
      simpa [JSObject.define] using h
    · have hmem := JSObject.mem_keys_define rest key value k0
      have hnew : k0 ∉ JSObject.keys (JSObject.define rest key value) := by
        rw [hmem]
        tauto
      have := ih hrest
      unfold JSObject.keys at this hnew ⊢
      simp only [JSObject.define, hk, if_false, List.map_cons]
      exact List.nodup_cons.mpr ⟨hnew, this⟩

theorem JSObject.own_define_same (obj : JSObject) (key : String) (value : Bool) :
    (obj.define key value).own key = some value := by
  induction obj with
  | nil => simp [JSObject.define, JSObject.own]
  | cons p rest ih =>
    obtain ⟨k0, v0⟩ := p
    by_cases h : k0 = key
    · simp [JSObject.define, JSObject.own, h]
    · simp [JSObject.define, JSObject.own, h, ih]

theorem JSObject.own_define_other (obj : JSObject) (key : String) (value : Bool) (k : String)
    (h : k ≠ key) : (obj.define key value).own k = obj.own k := by
  induction obj with
  | nil =>
    have : ¬ key = k := fun h2 => h h2.symm
    simp [JSObject.define, JSObject.own, this]
  | cons p rest ih =>
    obtain ⟨k0, v0⟩ := p
    by_cases h0 : k0 = key
    · subst h0
      have : ¬ k0 = k := fun h2 => h h2.symm
      simp [JSObject.define, JSObject.own, this]
    · by_cases h1 : k0 = k
      · subst h1
        simp [JSObject.define, JSObject.own, h0]
      · simp [JSObject.define, JSObject.own, h0, h1, ih]

theorem JSObject.own_eq_none (obj : JSObject) (k : String) (h : k ∉ obj.keys) :
    obj.own k = none := by
  induction obj with
  | nil => rfl
  | cons p rest ih =>
    obtain ⟨k0, v0⟩ := p
    unfold JSObject.keys at h ih
    simp only [List.map_cons, List.mem_cons, not_or] at h
    have h0 : ¬ k0 = k := fun h2 => h.1 h2.symm
    simp [JSObject.own, h0, ih h.2]

/-- On an object without an own `__proto__`, the assignment of a boolean adds
or overwrites the key, except for the key `__proto__`, which it leaves out. -/
theorem JSObject.set_eq (obj : JSObject) (key : String) (value : Bool)
    (hproto : "__proto__" ∉ obj.keys) :
    obj.set key value = if key = "__proto__" then obj else obj.define key value := by
  unfold JSObject.set
  by_cases h : key = "__proto__"
  · subst h
    simp [JSObject.own_eq_none obj _ hproto]
  · simp [h]

/-- The loop of the probe, when every query it makes is answered: it ends
with an object holding the earlier keys and the package names of the entries
other than `__proto__`, each name mapped to the answer of the last query made
for it. -/
theorem checkInstalledLoop_spec (os : OS) (games : List Game) :
    ∀ (n : Nat) (acc : JSObject), "__proto__" ∉ acc.keys →
      (∀ i (h : i < games.length), ∃ b, os.isAppInstalled (n + i) games[i].packageName = .ok b) →
      ∃ m : JSObject,
        checkInstalledLoop os n games acc =
            ⟨games.map fun g => .isAppInstalled g.packageName, .ok m⟩ ∧
          (acc.keys.Nodup → m.keys.Nodup) ∧
          "__proto__" ∉ m.keys ∧
          (∀ k, k ∈ m.keys ↔
            k ∈ acc.keys ∨ (k ≠ "__proto__" ∧ ∃ g ∈ games, g.packageName = k)) ∧
          (∀ k, (∀ g ∈ games, g.packageName ≠ k) → m.own k = acc.own k) ∧
          (∀ k, k ≠ "__proto__" → (∃ g ∈ games, g.packageName = k) →
            ∃ i, ∃ h : i < games.length, games[i].packageName = k ∧
              (∀ j (hj : j < games.length), i < j → games[j].packageName ≠ k) ∧
              ∃ b, os.isAppInstalled (n + i) k = .ok b ∧ m.own k = some b) := by
  induction games with
  | nil =>
    intro n acc hproto _
    exact ⟨acc, rfl, id, hproto, by simp, by simp, by simp⟩
  | cons g rest ih =>
    intro n acc hproto hok
    obtain ⟨b0, hb0⟩ := hok 0 (by simp)
    simp only [Nat.add_zero, List.getElem_cons_zero] at hb0
    have hrest : ∀ i (h : i < rest.length),
        ∃ b, os.isAppInstalled (n + 1 + i) rest[i].packageName = .ok b := by
      intro i h
      obtain ⟨b, hb⟩ := hok (i + 1) (by simp; omega)
      refine ⟨b, ?_⟩
      simpa [Nat.add_assoc, Nat.add_comm 1 i] using hb
    have hset := JSObject.set_eq acc g.packageName b0 hproto
    have hproto2 : "__proto__" ∉ (acc.set g.packageName b0).keys := by
      rw [hset]
      by_cases hg : g.packageName = "__proto__"
      · simpa [hg] using hproto
      · simp only [hg, if_false, JSObject.mem_keys_define, not_or]
        exact ⟨hproto, fun h => hg h.symm⟩
    have hkeys0 : ∀ k, k ∈ (acc.set g.packageName b0).keys ↔
        k ∈ acc.keys ∨ (k ≠ "__proto__" ∧ g.packageName = k) := by
      intro k
      rw [hset]
      by_cases hg : g.packageName = "__proto__"
      · simp only [hg, if_true]
        constructor
        · exact Or.inl
        · rintro (h | ⟨h1, h2⟩)
          · exact h
          · exact absurd h2.symm h1
      · simp only [hg, if_false, JSObject.mem_keys_define]
        constructor
        · rintro (h | h)
          · exact Or.inl h
          · exact Or.inr ⟨fun h2 => hg (h ▸ h2), h.symm⟩
        · rintro (h | ⟨-, h⟩)
          · exact Or.inl h
          · exact Or.inr h.symm
    obtain ⟨m, hm, hnd, hmproto, hkeys, hown, hlast⟩ :=
      ih (n + 1) (acc.set g.packageName b0) hproto2 hrest
    refine ⟨m, ?_, ?_, hmproto, ?_, ?_, ?_⟩
    · simp [checkInstalledLoop, Eff.bind, Eff.call, hb0, hm]
    · intro h
      apply hnd
      rw [hset]
      by_cases hg : g.packageName = "__proto__"
      · simpa [hg] using h
      · simpa [hg] using JSObject.nodup_keys_define acc _ _ h
    · intro k
      rw [hkeys, hkeys0]
      simp only [List.mem_cons, exists_eq_or_imp]
      tauto
    · intro k hk
      have h1 : ∀ g' ∈ rest, g'.packageName ≠ k := fun g' hg' => hk g' (List.mem_cons_of_mem _ hg')
      have h2 : k ≠ g.packageName := fun h => hk g (List.mem_cons_self _ _) h.symm
      rw [hown k h1, hset]
      by_cases hg : g.packageName = "__proto__"
      · simp [hg]
      · simp only [hg, if_false]
        exact JSObject.own_define_other _ _ _ _ h2
    · intro k hkp hk
      by_cases hin : ∃ g' ∈ rest, g'.packageName = k
      · obtain ⟨i, hi, hname, hlater, b, hb, hmb⟩ := hlast k hkp hin
        refine ⟨i + 1, by simp; omega, by simpa using hname, ?_, b, ?_, hmb⟩
        · intro j hj hij
          obtain ⟨j', rfl⟩ : ∃ j', j = j' + 1 := ⟨j - 1, by omega⟩
          simp only [List.getElem_cons_succ]
          exact hlater j' (by simpa using hj) (by omega)
        · simpa [Nat.add_assoc, Nat.add_comm 1 i] using hb
      · have hg : g.packageName = k := by
          obtain ⟨g', hg', hk'⟩ := hk
          rcases List.mem_cons.mp hg' with h | h
          · rw [← h]; exact hk'
          · exact absurd ⟨g', h, hk'⟩ hin
        have hnot : ∀ g' ∈ rest, g'.packageName ≠ k := fun g' hg' h => hin ⟨g', hg', h⟩
        have hgp : ¬ g.packageName = "__proto__" := fun h => hkp (hg ▸ h)
        refine ⟨0, by simp, by simpa using hg, ?_, b0, ?_, ?_⟩
        · intro j hj hij
          obtain ⟨j', rfl⟩ : ∃ j', j = j' + 1 := ⟨j - 1, by omega⟩
          simp only [List.getElem_cons_succ]
          exact hnot _ (List.getElem_mem _)
        · simpa [hg] using hb0
        · rw [hown k hnot, hset, ← hg]
          simp only [hgp, if_false]
          exact JSObject.own_define_same _ _ _

theorem installedGamesAfter_append_set (current value : JSObject) (t : Trace)
    (ht : ∀ ev ∈ t, ∀ v, ev ≠ .setInstalledGames v) :
    installedGamesAfter current (t ++ [.setInstalledGames value]) = value := by
  induction t generalizing current with
  | nil => rfl
  | cons ev rest ih =>
    have hrest : ∀ ev' ∈ rest, ∀ v, ev' ≠ .setInstalledGames v :=
      fun ev' h => ht ev' (List.mem_cons_of_mem _ h)
    cases ev with
    | setInstalledGames v => exact absurd rfl (ht _ (List.mem_cons_self _ _) v)
    | _ => exact ih current hrest

/-- The probe, when every query it makes is answered: it completes, and the
state it leaves is the object built by the loop. -/
theorem checkInstalled_spec (os : OS) (games : List Game)
    (hok : ∀ i (h : i < games.length),
      ∃ b, os.isAppInstalled i games[i].packageName = .ok b) :
    ∃ m : JSObject,
      checkInstalled os games =
          ⟨(games.map fun g => .isAppInstalled g.packageName) ++ [.setInstalledGames m],
            .ok ()⟩ ∧
        probedGames os games = m ∧
        m.keys.Nodup ∧
        "__proto__" ∉ m.keys ∧
        (∀ k, k ∈ m.keys ↔ k ≠ "__proto__" ∧ ∃ g ∈ games, g.packageName = k) ∧
        (∀ k, k ≠ "__proto__" → (∃ g ∈ games, g.packageName = k) →
          ∃ i, ∃ h : i < games.length, games[i].packageName = k ∧
            (∀ j (hj : j < games.length), i < j → games[j].packageName ≠ k) ∧
            ∃ b, os.isAppInstalled i k = .ok b ∧ m.get k = .boolean b) := by
  obtain ⟨m, hm, hnd, hproto, hkeys, -, hlast⟩ :=
    checkInstalledLoop_spec os games 0 [] (by simp [JSObject.keys]) (by simpa using hok)
  have hrun : checkInstalled os games =
      ⟨(games.map fun g => .isAppInstalled g.packageName) ++ [.setInstalledGames m],
        .ok ()⟩ := by
    simp [checkInstalled, Eff.bind, Eff.emit, hm]
  refine ⟨m, hrun, ?_, hnd (by simp [JSObject.keys]), hproto, ?_, ?_⟩
  · unfold probedGames
    rw [hrun]
    apply installedGamesAfter_append_set
    intro ev hev v
    obtain ⟨g, -, rfl⟩ := List.mem_map.mp hev
    exact fun h => Event.noConfusion h
  · intro k
    rw [hkeys k]
    simp [JSObject.keys]
  · intro k hkp hk
    obtain ⟨i, hi, hname, hlater, b, hb, hmb⟩ := hlast k hkp hk
    exact ⟨i, hi, hname, hlater, b, by simpa using hb, by simp [JSObject.get, hmb]⟩

/-- The probe of the sample catalog, evaluated. -/
theorem probedGames_sample :
    probedGames (grantingOS 30) [sampleGame, otherGame, sampleGame] =
      [("com.x", false), ("com.y", true)] := by
  decide

/-! ## The probe (C1) -/

/-- C1, as stated, fails: for the catalog whose one entry has the package name
`__proto__`, the query is answered and `checkInstalled` completes, but the
assignment of line 31 creates no property and the state map has no key. -/
theorem checkInstalled_proto_counterexample :
    (grantingOS 30).isAppInstalled 0 protoGame.packageName = .ok false ∧
      (checkInstalled (grantingOS 30) [protoGame]).trace =
        [.isAppInstalled "__proto__", .setInstalledGames []] ∧
      (probedGames (grantingOS 30) [protoGame]).keys = [] := by
  refine ⟨rfl, ?_, ?_⟩ <;> decide

/-- C1, amended: for every catalog and every OS that answers each query of the
probe, `checkInstalled` completes, makes one query per entry in catalog order,
and leaves a state map whose keys are exactly the package names of the catalog
other than `__proto__`, each once; each key is mapped to the boolean the OS
returned for that package name (the answer of the last query for it, when a
name occurs more than once). -/
theorem checkInstalled_state_map (os : OS) (games : List Game)
    (hok : ∀ i (h : i < games.length),
      ∃ b, os.isAppInstalled i games[i].packageName = .ok b) :
    (checkInstalled os games).result = .ok () ∧
      (checkInstalled os games).trace =
        (games.map fun g => .isAppInstalled g.packageName) ++
          [.setInstalledGames (probedGames os games)] ∧
      (probedGames os games).keys.Nodup ∧
      (∀ k, k ∈ (probedGames os games).keys ↔
        k ≠ "__proto__" ∧ ∃ g ∈ games, g.packageName = k) ∧
      (∀ k ∈ (probedGames os games).keys,
        ∃ i, ∃ h : i < games.length, games[i].packageName = k ∧
          (∀ j (hj : j < games.length), i < j → games[j].packageName ≠ k) ∧
          ∃ b, os.isAppInstalled i k = .ok b ∧
            (probedGames os games).get k = .boolean b) := by
  obtain ⟨m, hrun, hstate, hnd, -, hkeys, hlast⟩ := checkInstalled_spec os games hok
  rw [hstate, hrun]
  exact ⟨rfl, rfl, hnd, hkeys,
    fun k hk => hlast k ((hkeys k).mp hk).1 ((hkeys k).mp hk).2⟩

/-- C1, amended, on a catalog of four entries, two of them with the same
package name and one named `__proto__`: the probe completes, `com.y` is a key
of the state map and `__proto__` is not. -/
theorem checkInstalled_state_map_witness :
    (checkInstalled (grantingOS 30) [sampleGame, otherGame, protoGame, sampleGame]).result =
        .ok () ∧
      (probedGames (grantingOS 30) [sampleGame, otherGame, protoGame, sampleGame]).keys.Nodup ∧
      "com.y" ∈ (probedGames (grantingOS 30)
        [sampleGame, otherGame, protoGame, sampleGame]).keys ∧
      "__proto__" ∉ (probedGames (grantingOS 30)
        [sampleGame, otherGame, protoGame, sampleGame]).keys :=
  have h := checkInstalled_state_map (grantingOS 30)
    [sampleGame, otherGame, protoGame, sampleGame] (fun _ _ => ⟨_, rfl⟩)
  ⟨h.1, h.2.2.1, (h.2.2.2.1 "com.y").mpr ⟨by decide, otherGame, by decide, rfl⟩,
    fun hp => ((h.2.2.2.1 "__proto__").mp hp).1 rfl⟩

/-! ## The action button (C2) -/

/-- C2, as stated, fails: with the initial empty map, the entry whose package
name is `constructor` reads the member inherited from `Object.prototype`,
which is truthy; its button reads "Play" and its press runs the launch path. -/
theorem renderGame_constructor_counterexample :
    JSObject.get [] constructorGame.packageName = .inherited "constructor" ∧
      (renderGame [] constructorGame).label = "▶ Play" ∧
      ((renderGame [] constructorGame).onPress (grantingOS 30)).trace =
        [.startAppByPackageName "constructor"] := by
  refine ⟨?_, ?_, ?_⟩ <;> decide

/-- C2, amended: for every catalog entry and every state map, the press handler
of the button runs `playGame` when the value read from the map for the package
name of the entry is `true`, and `installGame` when it is `false` or
`undefined`; when the map has no own entry for the name and the name is that
of a member of `Object.prototype`, the read gives that member and the press
runs `playGame`.  A run of `playGame` makes one launch call and no permission
request, copy or installer intent; a run of `installGame` makes a permission
request and no launch call.  After the assignment of `true` for the package
name the press runs `playGame`, after the assignment of `false` it runs
`installGame`.  With the initial empty map every entry whose package name is
not the name of a member of `Object.prototype` reads "Install" and its press
runs `installGame`. -/
theorem renderGame_onPress (installedGames : JSObject) (item : Game) (os : OS) :
    (renderGame installedGames item).onPress os =
        (match installedGames.get item.packageName with
          | .boolean true => playGame os item.packageName
          | .boolean false => installGame os item
          | .undefined => installGame os item
          | .inherited _ => playGame os item.packageName) ∧
      ((playGame os item.packageName).trace.countP Event.isLaunch = 1 ∧
        (playGame os item.packageName).trace.countP Event.isPermissionRequest = 0 ∧
        (playGame os item.packageName).trace.countP Event.isCopy = 0 ∧
        (playGame os item.packageName).trace.countP Event.isInstallIntent = 0) ∧
      ((installGame os item).trace.countP Event.isLaunch = 0 ∧
        (installGame os item).trace.countP Event.isPermissionRequest = 1) ∧
      (item.packageName ≠ "__proto__" →
        (renderGame (installedGames.set item.packageName true) item).onPress os =
            playGame os item.packageName ∧
          (renderGame (installedGames.set item.packageName false) item).onPress os =
            installGame os item) ∧
      (item.packageName ∉ objectPrototypeMembers →
        (renderGame [] item).label = "⬇ Install" ∧
          (renderGame [] item).onPress os = installGame os item) := by
  refine ⟨?_, (playGame_trace os item.packageName).2, ?_, ?_, ?_⟩
  · unfold renderGame
    cases h : installedGames.get item.packageName with
    | undefined => simp [truthy]
    | boolean b => cases b <;> simp [truthy]
    | inherited name => simp [truthy]
  · exact ⟨(installGame_trace os item).1, (installGame_trace os item).2.1⟩
  · intro hp
    have hset : ∀ v, (installedGames.set item.packageName v).get item.packageName =
        .boolean v := by
      intro v
      simp [JSObject.set, JSObject.get, hp, JSObject.own_define_same]
    simp [renderGame, hset, truthy]
  · intro hm
    simp [renderGame, JSObject.get, JSObject.own, hm, truthy]

/-- C2, amended, on concrete maps: a map holding `true` for `com.y` runs
`playGame`, a map holding `false` for `com.x` runs `installGame`, and so does
the empty map. -/
theorem renderGame_onPress_witness :
    (renderGame [("com.x", false), ("com.y", true)] otherGame).onPress (grantingOS 30) =
        playGame (grantingOS 30) "com.y" ∧
      (renderGame [("com.x", false), ("com.y", true)] sampleGame).onPress (grantingOS 30) =
        installGame (grantingOS 30) sampleGame ∧
      (renderGame (JSObject.set [] "com.y" true) otherGame).onPress (grantingOS 30) =
        playGame (grantingOS 30) "com.y" ∧
      (renderGame [] sampleGame).onPress (grantingOS 30) =
        installGame (grantingOS 30) sampleGame :=
  ⟨(renderGame_onPress [("com.x", false), ("com.y", true)] otherGame (grantingOS 30)).1,
    (renderGame_onPress [("com.x", false), ("com.y", true)] sampleGame (grantingOS 30)).1,
    ((renderGame_onPress [] otherGame (grantingOS 30)).2.2.2.1 (by decide)).1,
    ((renderGame_onPress [] sampleGame (grantingOS 30)).2.2.2.2 (by decide)).2⟩

/-! ## The install action (C3, C4, C5) -/

/-- C3: for every game and every OS version, if the storage permission asked
for by `requestStoragePermission` is not granted (the request is answered with
something other than `GRANTED`, or fails), `installGame` makes no file-copy
call and no installer-intent call. -/
theorem installGame_not_granted (os : OS) (game : Game)
    (hdenied : os.request (if 30 ≤ os.Version then .MANAGE_EXTERNAL_STORAGE
      else .WRITE_EXTERNAL_STORAGE) ≠ .ok GRANTED) :
    (installGame os game).trace.countP Event.isCopy = 0 ∧
      (installGame os game).trace.countP Event.isInstallIntent = 0 := by
  rw [installGame_eq, requestStoragePermission_eq]
  unfold requestedPermission
  by_cases hv : 30 ≤ os.Version
  · simp only [ge_iff_le, hv, if_true] at hdenied ⊢
    cases hr : os.request .MANAGE_EXTERNAL_STORAGE with
    | error e => simp [Event.isCopy, Event.isInstallIntent]
    | ok a =>
      have hg : a ≠ GRANTED := fun h => hdenied (by rw [hr, h])
      simp [hg, Event.isCopy, Event.isInstallIntent, permissionNeededAlert]
  · simp only [ge_iff_le, hv, if_false] at hdenied ⊢
    cases hr : os.request .WRITE_EXTERNAL_STORAGE with
    | error e => simp [Event.isCopy, Event.isInstallIntent, installFailedAlert]
    | ok a =>
      have hg : a ≠ GRANTED := fun h => hdenied (by rw [hr, h])
      simp [hg, Event.isCopy, Event.isInstallIntent]

/-- C3 with the request denied on version 30 and failing on version 29. -/
theorem installGame_not_granted_witness :
    ((installGame (denyingOS 30) sampleGame).trace.countP Event.isCopy = 0 ∧
      (installGame (denyingOS 30) sampleGame).trace.countP Event.isInstallIntent = 0) ∧
      ((installGame (brokenRequestOS 29) sampleGame).trace.countP Event.isCopy = 0 ∧
        (installGame (brokenRequestOS 29) sampleGame).trace.countP Event.isInstallIntent = 0) :=
  ⟨installGame_not_granted (denyingOS 30) sampleGame
      (fun h => absurd (Except.ok.inj h) (by decide)),
    installGame_not_granted (brokenRequestOS 29) sampleGame (fun h => Except.noConfusion h)⟩

/-- C4: for every game, if the permission is granted but `RNFS.copyFileAssets`
fails, `installGame` never calls `IntentLauncher.startActivity`. -/
theorem installGame_copy_failed (os : OS) (game : Game) (e : String)
    (hgranted : os.request (if 30 ≤ os.Version then .MANAGE_EXTERNAL_STORAGE
      else .WRITE_EXTERNAL_STORAGE) = .ok GRANTED)
    (hcopy : os.copyFileAssets ("games/" ++ game.fileName)
      (os.DownloadDirectoryPath ++ "/" ++ game.fileName) = .error e) :
    (installGame os game).trace.countP Event.isInstallIntent = 0 := by
  rw [installGame_eq, requestStoragePermission_eq]
  unfold requestedPermission
  simp only [ge_iff_le]
  rw [hgranted]
  simp [hcopy, Event.isInstallIntent, installFailedAlert]

/-- C4 on an OS whose asset copy fails with `ENOENT`. -/
theorem installGame_copy_failed_witness :
    (installGame (brokenCopyOS 30) sampleGame).trace.countP Event.isInstallIntent = 0 :=
  installGame_copy_failed (brokenCopyOS 30) sampleGame "ENOENT" rfl rfl

/-- C5, as stated, fails: with the permission granted and the copy succeeded,
an installer intent call that throws is caught and the alert "Failed to install
the APK" is shown. -/
theorem installGame_alert_after_copy_counterexample :
    (brokenIntentOS 30).request .MANAGE_EXTERNAL_STORAGE = .ok GRANTED ∧
      (brokenIntentOS 30).copyFileAssets "games/maze.apk"
        "/storage/emulated/0/Download/maze.apk" = .ok () ∧
      (installGame (brokenIntentOS 30) sampleGame).trace =
        [.permissionRequest .MANAGE_EXTERNAL_STORAGE,
          .copyFileAssets "games/maze.apk" "/storage/emulated/0/Download/maze.apk",
          .startActivity
            { action := "android.intent.action.VIEW"
              data := "file:///storage/emulated/0/Download/maze.apk"
              type := "application/vnd.android.package-archive"
              flags := 2 },
          .consoleError "no activity",
          .alert "Error" "Failed to install the APK" []] := by
  refine ⟨rfl, rfl, ?_⟩
  decide

/-- C5, amended: for every game descriptor, when the permission is granted and
the copy succeeds, the OS calls of `installGame` are, in this order, the
permission request, the copy of the asset `games/<fileName>` to
`<DownloadDirectoryPath>/<fileName>`, and one installer intent with MIME type
`application/vnd.android.package-archive` and data `file://` followed by the
copy destination; and no alert is shown exactly when that intent call returns. -/
theorem installGame_granted_copied (os : OS) (game : Game)
    (hgranted : os.request (if 30 ≤ os.Version then .MANAGE_EXTERNAL_STORAGE
      else .WRITE_EXTERNAL_STORAGE) = .ok GRANTED)
    (hcopy : os.copyFileAssets ("games/" ++ game.fileName)
      (os.DownloadDirectoryPath ++ "/" ++ game.fileName) = .ok ()) :
    (installGame os game).trace.filter Event.isOSCall =
        [.permissionRequest
            (if 30 ≤ os.Version then .MANAGE_EXTERNAL_STORAGE else .WRITE_EXTERNAL_STORAGE),
          .copyFileAssets ("games/" ++ game.fileName)
            (os.DownloadDirectoryPath ++ "/" ++ game.fileName),
          .startActivity
            { action := "android.intent.action.VIEW"
              data := "file://" ++ (os.DownloadDirectoryPath ++ "/" ++ game.fileName)
              type := "application/vnd.android.package-archive"
              flags := 2 }] ∧
      ((installGame os game).trace.countP Event.isAlert = 0 ↔
        os.startActivity
          { action := "android.intent.action.VIEW"
            data := "file://" ++ (os.DownloadDirectoryPath ++ "/" ++ game.fileName)
            type := "application/vnd.android.package-archive"
            flags := 2 } = .ok ()) := by
  have hi : installIntent (os.DownloadDirectoryPath ++ "/" ++ game.fileName) =
      { action := "android.intent.action.VIEW"
        data := "file://" ++ (os.DownloadDirectoryPath ++ "/" ++ game.fileName)
        type := "application/vnd.android.package-archive"
        flags := 2 } := rfl
  rw [installGame_eq, requestStoragePermission_eq]
  unfold requestedPermission
  simp only [ge_iff_le]
  rw [hgranted, hi]
  simp only [if_true, hcopy]
  cases hs : os.startActivity
      { action := "android.intent.action.VIEW"
        data := "file://" ++ (os.DownloadDirectoryPath ++ "/" ++ game.fileName)
        type := "application/vnd.android.package-archive"
        flags := 2 } with
  | error e => simp [Event.isOSCall, Event.isAlert, installFailedAlert]
  | ok u => simp [Event.isOSCall, Event.isAlert]

/-- C5, amended, on an OS that accepts every call: three OS calls, no alert. -/
theorem installGame_granted_copied_witness :
    (installGame (grantingOS 30) sampleGame).trace.filter Event.isOSCall =
        [.permissionRequest .MANAGE_EXTERNAL_STORAGE,
          .copyFileAssets "games/maze.apk" "/storage/emulated/0/Download/maze.apk",
          .startActivity
            { action := "android.intent.action.VIEW"
              data := "file:///storage/emulated/0/Download/maze.apk"
              type := "application/vnd.android.package-archive"
              flags := 2 }] ∧
      (installGame (grantingOS 30) sampleGame).trace.countP Event.isAlert = 0 :=
  ⟨(installGame_granted_copied (grantingOS 30) sampleGame rfl rfl).1,
    (installGame_granted_copied (grantingOS 30) sampleGame rfl rfl).2.mpr rfl⟩

/-! ## The launch action (C6) -/

/-- C6, as stated, fails: on the catalog `com.y`, `com.x` the OS reports
`com.y` installed, the query for `com.x` fails, `checkInstalled` stops before
`setInstalledGames`, and the button of `com.y` reads "Install". -/
theorem probe_failed_counterexample :
    (brokenQueryOS 30).isAppInstalled 0 otherGame.packageName = .ok true ∧
      (checkInstalled (brokenQueryOS 30) [otherGame, sampleGame]).trace =
        [.isAppInstalled "com.y", .isAppInstalled "com.x"] ∧
      (checkInstalled (brokenQueryOS 30) [otherGame, sampleGame]).result =
        .error "query failed" ∧
      (renderGame (probedGames (brokenQueryOS 30) [otherGame, sampleGame]) otherGame).label =
        "⬇ Install" := by
  refine ⟨rfl, ?_, rfl, ?_⟩ <;> decide

/-- C6, amended: `playGame` issues exactly one OS call, the launch of the
package name it is given, and no permission request, file copy or installer
intent; and for an entry of the catalog that the OS reports installed, once
the probe has completed (every query of the probe answered), the button reads
"Play" and a tap makes the one OS call that launches the package name of that
entry. -/
theorem playGame_launches (os : OS) (pkg : String) :
    (playGame os pkg).trace.filter Event.isOSCall = [.startAppByPackageName pkg] ∧
      (playGame os pkg).trace.countP Event.isPermissionRequest = 0 ∧
      (playGame os pkg).trace.countP Event.isCopy = 0 ∧
      (playGame os pkg).trace.countP Event.isInstallIntent = 0 ∧
      ∀ (probe : OS) (games : List Game) (item : Game), item ∈ games →
        (∀ i (h : i < games.length),
          ∃ b, probe.isAppInstalled i games[i].packageName = .ok b) →
        (∀ n, probe.isAppInstalled n item.packageName = .ok true) →
        (renderGame (probedGames probe games) item).label = "▶ Play" ∧
          ((renderGame (probedGames probe games) item).onPress os).trace.filter
              Event.isOSCall = [.startAppByPackageName item.packageName] := by
  obtain ⟨h1, -, h3, h4, h5⟩ := playGame_trace os pkg
  refine ⟨h1, h3, h4, h5, ?_⟩
  intro probe games item hitem hok hinst
  obtain ⟨m, -, hstate, -, hproto, -, hlast⟩ := checkInstalled_spec probe games hok
  have hplay := (playGame_trace os item.packageName).1
  have htruthy : truthy (m.get item.packageName) = true := by
    by_cases hp : item.packageName = "__proto__"
    · rw [hp]
      simp [JSObject.get, JSObject.own_eq_none m _ hproto, objectPrototypeMembers, truthy]
    · obtain ⟨i, -, -, -, b, hb, hmb⟩ := hlast item.packageName hp ⟨item, hitem, rfl⟩
      have hbt : b = true := by
        rw [hinst] at hb
        exact (Except.ok.inj hb).symm
      rw [hmb, hbt]
      rfl
  rw [hstate]
  simp [renderGame, htruthy, hplay]

/-- C6, amended, on the sample catalog: `com.y` is reported installed, its
button reads "Play" and a tap launches `com.y` and nothing else. -/
theorem playGame_launches_witness :
    (renderGame (probedGames (grantingOS 30) [sampleGame, otherGame]) otherGame).label =
        "▶ Play" ∧
      ((renderGame (probedGames (grantingOS 30) [sampleGame, otherGame]) otherGame).onPress
          (grantingOS 30)).trace.filter Event.isOSCall = [.startAppByPackageName "com.y"] :=
  (playGame_launches (grantingOS 30) "com.y").2.2.2.2 (grantingOS 30)
    [sampleGame, otherGame] otherGame (by decide) (fun _ _ => ⟨_, rfl⟩) (fun _ => rfl)

/-! ## The permission gate (C7, C8) -/

/-- C7: on every OS version `requestStoragePermission` issues exactly one
permission request, for `MANAGE_EXTERNAL_STORAGE` when the version is at least
30 and for `WRITE_EXTERNAL_STORAGE` when it is below 30; and when the request
is answered, the function returns `true` exactly when the answer is `GRANTED`. -/
theorem requestStoragePermission_one_request (os : OS) :
    (requestStoragePermission os).trace.filter Event.isPermissionRequest =
        [.permissionRequest
          (if 30 ≤ os.Version then .MANAGE_EXTERNAL_STORAGE else .WRITE_EXTERNAL_STORAGE)] ∧
      ∀ answer : String,
        os.request (if 30 ≤ os.Version then .MANAGE_EXTERNAL_STORAGE
            else .WRITE_EXTERNAL_STORAGE) = .ok answer →
          ((requestStoragePermission os).result = .ok true ↔ answer = GRANTED) ∧
          ((requestStoragePermission os).result = .ok false ↔ answer ≠ GRANTED) := by
  rw [requestStoragePermission_eq]
  unfold requestedPermission
  by_cases hv : 30 ≤ os.Version
  · simp only [ge_iff_le, hv, if_true]
    cases hr : os.request .MANAGE_EXTERNAL_STORAGE with
    | error e => simp [Event.isPermissionRequest]
    | ok a =>
      by_cases hg : a = GRANTED
      · simp [Event.isPermissionRequest, hg]
      · refine ⟨by simp [Event.isPermissionRequest, hg, permissionNeededAlert], ?_⟩
        intro answer h
        cases h
        simp [hg]
  · simp only [ge_iff_le, hv, if_false]
    cases hr : os.request .WRITE_EXTERNAL_STORAGE with
    | error e => simp [Event.isPermissionRequest]
    | ok a =>
      by_cases hg : a = GRANTED
      · simp [Event.isPermissionRequest, hg]
      · refine ⟨by simp [Event.isPermissionRequest, hg], ?_⟩
        intro answer h
        cases h
        simp [hg]

/-- C7 at version 33 with the request granted and at version 29 with the
request denied. -/
theorem requestStoragePermission_one_request_witness :
    (requestStoragePermission (grantingOS 33)).trace.filter Event.isPermissionRequest =
        [.permissionRequest .MANAGE_EXTERNAL_STORAGE] ∧
      (requestStoragePermission (grantingOS 33)).result = .ok true ∧
      (requestStoragePermission (denyingOS 29)).trace.filter Event.isPermissionRequest =
        [.permissionRequest .WRITE_EXTERNAL_STORAGE] ∧
      (requestStoragePermission (denyingOS 29)).result = .ok false :=
  ⟨(requestStoragePermission_one_request (grantingOS 33)).1,
    ((requestStoragePermission_one_request (grantingOS 33)).2 GRANTED rfl).1.mpr rfl,
    (requestStoragePermission_one_request (denyingOS 29)).1,
    ((requestStoragePermission_one_request (denyingOS 29)).2 "denied" rfl).2.mpr (by decide)⟩

/-- C8: when the request is answered with anything other than `GRANTED`, on
version 30 or above the gate shows exactly one "Permission Needed" dialog with
the buttons "Open Settings" and "Cancel" and returns `false`; below version 30
it returns `false` and shows no dialog at all. -/
theorem requestStoragePermission_denied (os : OS) (answer : String)
    (hanswer : os.request (if 30 ≤ os.Version then .MANAGE_EXTERNAL_STORAGE
      else .WRITE_EXTERNAL_STORAGE) = .ok answer)
    (hdenied : answer ≠ GRANTED) :
    (requestStoragePermission os).result = .ok false ∧
      (requestStoragePermission os).trace.filter Event.isAlert =
        if 30 ≤ os.Version then
          [.alert "Permission Needed" permissionNeededMessage
            [⟨"Open Settings", none⟩, ⟨"Cancel", some "cancel"⟩]]
        else [] := by
  rw [requestStoragePermission_eq]
  unfold requestedPermission
  by_cases hv : 30 ≤ os.Version
  · simp only [ge_iff_le, hv, if_true] at hanswer ⊢
    simp [hanswer, hdenied, Event.isAlert, permissionNeededAlert]
  · simp only [ge_iff_le, hv, if_false] at hanswer ⊢
    simp [hanswer, hdenied, Event.isAlert]

/-- C8 with the answer `denied`: one dialog at version 30, none at version 29. -/
theorem requestStoragePermission_denied_witness :
    ((requestStoragePermission (denyingOS 30)).result = .ok false ∧
      (requestStoragePermission (denyingOS 30)).trace.filter Event.isAlert =
        [.alert "Permission Needed" permissionNeededMessage
          [⟨"Open Settings", none⟩, ⟨"Cancel", some "cancel"⟩]]) ∧
      ((requestStoragePermission (denyingOS 29)).result = .ok false ∧
        (requestStoragePermission (denyingOS 29)).trace.filter Event.isAlert = []) :=
  ⟨requestStoragePermission_denied (denyingOS 30) "denied" rfl (by decide),
    requestStoragePermission_denied (denyingOS 29) "denied" rfl (by decide)⟩

/-! ## Failures at the action boundary (C9) -/

/-- C9, as stated, fails: on version 30 a permission request that fails is
caught inside `requestStoragePermission` and logged with `console.warn`;
`installGame` then stops and shows no alert. -/
theorem installGame_failed_request_counterexample :
    (brokenRequestOS 30).request .MANAGE_EXTERNAL_STORAGE = .error "request failed" ∧
      (installGame (brokenRequestOS 30) sampleGame).trace =
        [.permissionRequest .MANAGE_EXTERNAL_STORAGE, .consoleWarn "request failed"] ∧
      (installGame (brokenRequestOS 30) sampleGame).trace.countP Event.isAlert = 0 := by
  refine ⟨rfl, ?_, ?_⟩ <;> decide

/-- C9, amended: `installGame` and `playGame` never pass a failure on to their
caller and show at most one alert.  A failing copy, an installer intent call
that throws and, below version 30, a failing permission request each give
exactly the one alert "Failed to install the APK"; a launch call that throws
gives exactly the one alert "Unable to launch game.".  On version 30 or above a
failing permission request gives no alert: it is logged as a console warning
inside the permission gate and the install stops.  Nothing is said here of an
installer intent or launch whose returned promise is rejected. -/
theorem actions_catch_failures (os : OS) (game : Game) (pkg : String) :
    (installGame os game).result = .ok () ∧
      (playGame os pkg).result = .ok () ∧
      (installGame os game).trace.countP Event.isAlert ≤ 1 ∧
      (playGame os pkg).trace.countP Event.isAlert ≤ 1 ∧
      (∀ e, os.request .WRITE_EXTERNAL_STORAGE = .error e → os.Version < 30 →
        (installGame os game).trace.filter Event.isAlert =
          [.alert "Error" "Failed to install the APK" []]) ∧
      (∀ e, os.request .MANAGE_EXTERNAL_STORAGE = .error e → 30 ≤ os.Version →
        (installGame os game).trace =
          [.permissionRequest .MANAGE_EXTERNAL_STORAGE, .consoleWarn e]) ∧
      (∀ e, (requestStoragePermission os).result = .ok true →
        os.copyFileAssets ("games/" ++ game.fileName)
          (os.DownloadDirectoryPath ++ "/" ++ game.fileName) = .error e →
        (installGame os game).trace.filter Event.isAlert =
          [.alert "Error" "Failed to install the APK" []]) ∧
      (∀ e, (requestStoragePermission os).result = .ok true →
        os.copyFileAssets ("games/" ++ game.fileName)
          (os.DownloadDirectoryPath ++ "/" ++ game.fileName) = .ok () →
        os.startActivity (installIntent (os.DownloadDirectoryPath ++ "/" ++ game.fileName)) =
          .error e →
        (installGame os game).trace.filter Event.isAlert =
          [.alert "Error" "Failed to install the APK" []]) ∧
      (∀ e, os.startAppByPackageName pkg = .error e →
        (playGame os pkg).trace.filter Event.isAlert =
          [.alert "Error" "Unable to launch game." []]) := by
  have hgate : ∀ ev ∈ (requestStoragePermission os).trace, Event.isAlert ev = true →
      (requestStoragePermission os).result = .ok false := by
    rw [requestStoragePermission_eq]
    cases os.request (requestedPermission os.Version) with
    | error e => by_cases hv : 30 ≤ os.Version <;> simp [hv, Event.isAlert]
    | ok a =>
      by_cases hg : a = GRANTED <;> by_cases hv : 30 ≤ os.Version <;>
        simp [hg, hv, Event.isAlert, permissionNeededAlert]
  have hgate1 : (requestStoragePermission os).trace.countP Event.isAlert ≤ 1 := by
    rw [requestStoragePermission_eq]
    cases os.request (requestedPermission os.Version) with
    | error e => by_cases hv : 30 ≤ os.Version <;> simp [hv, Event.isAlert]
    | ok a =>
      by_cases hg : a = GRANTED <;> by_cases hv : 30 ≤ os.Version <;>
        simp [hg, hv, Event.isAlert, permissionNeededAlert]
  have hquiet : (requestStoragePermission os).result ≠ .ok false →
      (requestStoragePermission os).trace.filter Event.isAlert = [] := by
    intro h
    rw [List.filter_eq_nil_iff]
    intro ev hev hal
    exact h (hgate ev hev hal)
  refine ⟨installGame_result os game, playGame_result os pkg, ?_, ?_, ?_, ?_, ?_, ?_, ?_⟩
  · rw [installGame_eq]
    cases hp : (requestStoragePermission os).result with
    | error e =>
      have := hquiet (by rw [hp]; exact fun h => Except.noConfusion h)
      simp [List.countP_eq_length_filter, this, Event.isAlert, installFailedAlert]
    | ok b =>
      cases b with
      | false => simpa using hgate1
      | true =>
        have := hquiet (by rw [hp]; exact fun h => by cases h)
        simp only
        cases os.copyFileAssets ("games/" ++ game.fileName)
            (os.DownloadDirectoryPath ++ "/" ++ game.fileName) with
        | error e =>
          simp [List.countP_eq_length_filter, this, Event.isAlert, installFailedAlert]
        | ok u =>
          simp only
          cases os.startActivity
            (installIntent (os.DownloadDirectoryPath ++ "/" ++ game.fileName)) <;>
            simp [List.countP_eq_length_filter, this, Event.isAlert, installFailedAlert]
  · rw [playGame_eq]
    cases os.startAppByPackageName pkg <;> simp [Event.isAlert, launchFailedAlert]
  · intro e he hv
    have hv2 : ¬ 30 ≤ os.Version := Nat.not_le.mpr hv
    rw [installGame_eq, requestStoragePermission_eq]
    simp [requestedPermission, hv2, he, Event.isAlert, installFailedAlert]
  · intro e he hv
    rw [installGame_eq, requestStoragePermission_eq]
    simp [requestedPermission, hv, he]
  · intro e hp hc
    have := hquiet (by rw [hp]; exact fun h => by cases h)
    rw [installGame_eq]
    simp [hp, hc, this, Event.isAlert, installFailedAlert]
  · intro e hp hc hs
    have := hquiet (by rw [hp]; exact fun h => by cases h)
    rw [installGame_eq]
    simp [hp, hc, hs, this, Event.isAlert, installFailedAlert]
  · intro e hs
    rw [playGame_eq]
    simp [hs, Event.isAlert, launchFailedAlert]

/-- C9, amended, on five failing systems: each failure named in the theorem at
a concrete input. -/
theorem actions_catch_failures_witness :
    (installGame (brokenRequestOS 29) sampleGame).trace.filter Event.isAlert =
        [.alert "Error" "Failed to install the APK" []] ∧
      (installGame (brokenRequestOS 30) sampleGame).trace =
        [.permissionRequest .MANAGE_EXTERNAL_STORAGE, .consoleWarn "request failed"] ∧
      (installGame (brokenCopyOS 30) sampleGame).trace.filter Event.isAlert =
        [.alert "Error" "Failed to install the APK" []] ∧
      (installGame (brokenIntentOS 30) sampleGame).trace.filter Event.isAlert =
        [.alert "Error" "Failed to install the APK" []] ∧
      (playGame (brokenLaunchOS 30) "com.y").trace.filter Event.isAlert =
        [.alert "Error" "Unable to launch game." []] :=
  ⟨(actions_catch_failures (brokenRequestOS 29) sampleGame "com.y").2.2.2.2.1
      "request failed" rfl (by decide),
    (actions_catch_failures (brokenRequestOS 30) sampleGame "com.y").2.2.2.2.2.1
      "request failed" rfl (by decide),
    (actions_catch_failures (brokenCopyOS 30) sampleGame "com.y").2.2.2.2.2.2.1
      "ENOENT" rfl rfl,
    (actions_catch_failures (brokenIntentOS 30) sampleGame "com.y").2.2.2.2.2.2.2.1
      "no activity" rfl rfl rfl,
    (actions_catch_failures (brokenLaunchOS 30) sampleGame "com.y").2.2.2.2.2.2.2.2
      "not found" rfl⟩

/-- The installer intent is called without `await` (line 88): however the
promise it returns is settled, `installGame` runs the same. -/
theorem installGame_ignores_promise (os : OS) (settle : IntentParams → Except String Unit)
    (game : Game) :
    installGame { os with startActivityPromise := settle } game = installGame os game :=
  rfl

/-- The launch is called without `await` (line 102): however the promise it
returns is settled, `playGame` runs the same. -/
theorem playGame_ignores_promise (os : OS) (settle : String → Except String Unit)
    (pkg : String) :
    playGame { os with startAppByPackageNamePromise := settle } pkg = playGame os pkg :=
  rfl

/-- An installer intent whose promise is rejected is not caught: the run ends
after the call, with no console line and no alert. -/
theorem installGame_rejected_intent_uncaught :
    (rejectedIntentOS 30).startActivityPromise
        (installIntent "/storage/emulated/0/Download/maze.apk") = .error "no activity" ∧
      (installGame (rejectedIntentOS 30) sampleGame).trace =
        [.permissionRequest .MANAGE_EXTERNAL_STORAGE,
          .copyFileAssets "games/maze.apk" "/storage/emulated/0/Download/maze.apk",
          .startActivity (installIntent "/storage/emulated/0/Download/maze.apk")] := by
  refine ⟨rfl, ?_⟩
  decide

/-- A launch whose promise is rejected is not caught: no alert is shown. -/
theorem playGame_rejected_launch_uncaught :
    (rejectedLaunchOS 30).startAppByPackageNamePromise "com.y" = .error "not found" ∧
      (playGame (rejectedLaunchOS 30) "com.y").trace = [.startAppByPackageName "com.y"] := by
  refine ⟨rfl, ?_⟩
  decide

/-! ## Repeated installs (C10) -/

/-- C10, as stated, fails: two invocations in a row on an OS that answers
`denied` issue two permission requests and no copy attempt. -/
theorem installTwice_denied_counterexample :
    (installTwice (denyingOS 29) (denyingOS 29) sampleGame).trace =
        [.permissionRequest .WRITE_EXTERNAL_STORAGE,
          .permissionRequest .WRITE_EXTERNAL_STORAGE] ∧
      (installTwice (denyingOS 29) (denyingOS 29) sampleGame).trace.countP Event.isCopy = 0 := by
  constructor <;> decide

/-- C10, amended: two invocations of `installGame` in sequence for the same
game issue two permission requests, and one copy attempt for each invocation
in which the permission is granted (two when it is granted both times).  The
action writes no state: the events of the pair are those of the first
invocation followed by those the second invocation makes on its own, and the
state map is what it was before. -/
theorem installTwice_independent (first second : OS) (game : Game)
    (installedGames : JSObject) :
    (installTwice first second game).trace =
        (installGame first game).trace ++ (installGame second game).trace ∧
      installedGamesAfter installedGames (installGame first game).trace = installedGames ∧
      (installTwice first second game).trace.countP Event.isPermissionRequest = 2 ∧
      (installTwice first second game).trace.filter Event.isCopy =
        (if first.grants then
          [.copyFileAssets ("games/" ++ game.fileName)
            (first.DownloadDirectoryPath ++ "/" ++ game.fileName)]
        else []) ++
        (if second.grants then
          [.copyFileAssets ("games/" ++ game.fileName)
            (second.DownloadDirectoryPath ++ "/" ++ game.fileName)]
        else []) := by
  have hres : (installGame first game).result = .ok () := installGame_result first game
  have htrace : (installTwice first second game).trace =
      (installGame first game).trace ++ (installGame second game).trace := by
    simp [installTwice, Eff.bind, hres]
  refine ⟨htrace, (installGame_trace first game).2.2 installedGames, ?_, ?_⟩
  · rw [htrace, List.countP_append, (installGame_trace first game).2.1,
      (installGame_trace second game).2.1]
  · rw [htrace, List.filter_append, installGame_copies, installGame_copies]

/-- C10, amended, on an OS that grants the permission both times: two
permission requests and two copy attempts. -/
theorem installTwice_granted :
    (installTwice (grantingOS 30) (grantingOS 30) sampleGame).trace.countP
        Event.isPermissionRequest = 2 ∧
      (installTwice (grantingOS 30) (grantingOS 30) sampleGame).trace.filter Event.isCopy =
        [.copyFileAssets "games/maze.apk" "/storage/emulated/0/Download/maze.apk",
          .copyFileAssets "games/maze.apk" "/storage/emulated/0/Download/maze.apk"] :=
  ⟨(installTwice_independent (grantingOS 30) (grantingOS 30) sampleGame []).2.2.1,
    (installTwice_independent (grantingOS 30) (grantingOS 30) sampleGame []).2.2.2⟩

end MindSprouts
